import Mathlib

/-!
Verification of the CPU activation / quantized-GEMM offset-correction core of
the ArmComputeLibrary repository, shallowly embedded in Lean 4.

The embedding follows `src/src/cpu/kernels/CpuActivationKernel.cpp` and
`src/src/cpu/kernels/CpuGemmLowpOffsetContributionKernel.h`.  Scalars that the
source holds as `float` appear here as exact rationals (the scales that matter,
1/128, 1/256 and 1/32768, are exactly representable in binary floating point),
and `int32_t` values appear as unbounded integers (signed overflow is undefined
behaviour in the source and never occurs in the statements below).
-/

namespace ACL

/-- The activation-function enumeration of `ActivationLayerInfo`
(`arm_compute::ActivationLayerInfo::ActivationFunction`). -/
inductive ActivationFunction where
  | LOGISTIC
  | TANH
  | RELU
  | BOUNDED_RELU
  | LU_BOUNDED_RELU
  | LEAKY_RELU
  | SOFT_RELU
  | ELU
  | ABS
  | SQUARE
  | SQRT
  | LINEAR
  | IDENTITY
  | HARD_SWISH
  | SWISH
  | GELU
deriving DecidableEq, Repr

/-- The subset of `arm_compute::DataType` relevant to the activation kernel:
the five members of the kernel's data-type whitelist plus the quantized types
mentioned by its checks and helper predicates. -/
inductive DataType where
  | QASYMM8
  | QASYMM8_SIGNED
  | QASYMM16
  | QSYMM8
  | QSYMM16
  | F16
  | F32
  | U8
deriving DecidableEq, Repr

/-- Modelled from the spec: quantization info `{scale: float, zero_point: int,
dynamic: bool}` (§3, TensorDescriptor); the `QuantizationInfo` class itself is
declared outside `src/`.  `scale` is an exact rational. -/
structure QuantizationInfo where
  scale : ℚ
  offset : ℤ
  is_dynamic : Bool
deriving DecidableEq, Repr

/-- Modelled from the spec: the equality used by the mandated-output checks
compares the `(scale, zero_point)` pair (§4.2: "the *output* quantization
(scale, zero_point) is mandated exactly"); `QuantizationInfo`'s comparison
operator is declared outside `src/`. -/
def qinfoEq (x y : QuantizationInfo) : Bool :=
  x.scale == y.scale && x.offset == y.offset

/-- The slice of `ITensorInfo` that `validate_arguments` reads: data type,
quantization info, total size and shape. -/
structure TensorInfo where
  data_type : DataType
  quantization_info : QuantizationInfo
  total_size : Nat
  shape : List Nat
deriving DecidableEq, Repr

/-- The slice of `ActivationLayerInfo` the kernel reads: function tag, the two
scalar parameters and the enabled flag. -/
structure ActivationLayerInfo where
  activation : ActivationFunction
  a : ℚ
  b : ℚ
  enabled : Bool
deriving DecidableEq, Repr

/-- `qasymm8_activations` (CpuActivationKernel.cpp, lines 50-55): the supported
activations in the 8-bit asymmetric domain. -/
def qasymm8_activations : List ActivationFunction :=
  [.RELU, .LU_BOUNDED_RELU, .BOUNDED_RELU, .LOGISTIC,
   .TANH, .HARD_SWISH, .LEAKY_RELU, .GELU]

/-- `qasymm8_static_quant_activations` (CpuActivationKernel.cpp, lines 58-60). -/
def qasymm8_static_quant_activations : List ActivationFunction :=
  [.RELU, .BOUNDED_RELU, .LU_BOUNDED_RELU]

/-- `qsymm16_activations` (CpuActivationKernel.cpp, lines 63-65): note that the
array has four entries, not the two its adjacent error message mentions. -/
def qsymm16_activations : List ActivationFunction :=
  [.LOGISTIC, .TANH, .HARD_SWISH, .LU_BOUNDED_RELU]

/-- Modelled from the spec: `arm_compute::is_data_type_quantized_asymmetric`
(declared outside `src/`); the 8/16-bit asymmetric (affine scale/zero-point)
data types (§ glossary "8-bit asymmetric"). -/
def is_data_type_quantized_asymmetric : DataType → Bool
  | .QASYMM8 => true
  | .QASYMM8_SIGNED => true
  | .QASYMM16 => true
  | _ => false

/-- Modelled from the spec: `arm_compute::is_data_type_quantized_asymmetric_char`
(declared outside `src/`); the char-sized (8-bit) asymmetric data types. -/
def is_data_type_quantized_asymmetric_char : DataType → Bool
  | .QASYMM8 => true
  | .QASYMM8_SIGNED => true
  | _ => false

/-- Modelled from the spec: `arm_compute::is_data_type_quantized_symmetric`
(declared outside `src/`); the pure-scale (symmetric) quantized data types
(§ glossary "16-bit symmetric"). -/
def is_data_type_quantized_symmetric : DataType → Bool
  | .QSYMM8 => true
  | .QSYMM16 => true
  | _ => false

/-- The data-type whitelist of `validate_arguments` (line 70):
QASYMM8_SIGNED, QASYMM8, QSYMM16, F16, F32. -/
def data_type_supported : DataType → Bool
  | .QASYMM8 => true
  | .QASYMM8_SIGNED => true
  | .QSYMM16 => true
  | .F16 => true
  | .F32 => true
  | _ => false

/-- Modelled from the spec: `CpuActivationKernelHeuristics` (not under `src/`)
filters registered variants by hardware capability and source data type and
always retains at least a generic fallback for a supported data type (§4.1);
so a non-null kernel is found exactly for the supported data types. -/
def heuristics_kernel_found (dt : DataType) : Bool :=
  data_type_supported dt

/-- `oq_info` as computed at CpuActivationKernel.cpp line 78: the destination
quantization info when a destination descriptor is given, else the source's. -/
def output_qinfo (src : TensorInfo) (dst : Option TensorInfo) : QuantizationInfo :=
  match dst with
  | some d => d.quantization_info
  | none => src.quantization_info

/-- `validate_arguments` (CpuActivationKernel.cpp, lines 67-126), as a Boolean:
`true` is the OK status, `false` any error return.  The conjuncts appear in
source order; the F16-hardware-support check is taken as passing (an aarch64
target with half-precision support is assumed throughout). -/
def validate_arguments (src : TensorInfo) (dst : Option TensorInfo)
    (act : ActivationLayerInfo) : Bool :=
  let dt := src.data_type
  let oq := output_qinfo src dst
  let f := act.activation
  data_type_supported dt &&
  heuristics_kernel_found dt &&
  !(is_data_type_quantized_asymmetric_char dt && oq.is_dynamic &&
      !(qasymm8_static_quant_activations.contains f)) &&
  !(is_data_type_quantized_asymmetric dt &&
      !(qasymm8_activations.contains f)) &&
  !(is_data_type_quantized_symmetric dt &&
      !(qsymm16_activations.contains f)) &&
  !((dt == .QASYMM8 || dt == .QASYMM16) && f == .TANH &&
      !(qinfoEq oq ⟨mkRat 1 128, 128, false⟩)) &&
  !((dt == .QASYMM8 || dt == .QASYMM16) && f == .LOGISTIC &&
      !(qinfoEq oq ⟨mkRat 1 256, 0, false⟩)) &&
  !(dt == .QASYMM8_SIGNED && f == .TANH &&
      !(qinfoEq oq ⟨mkRat 1 128, 0, false⟩)) &&
  !(dt == .QASYMM8_SIGNED && f == .LOGISTIC &&
      !(qinfoEq oq ⟨mkRat 1 256, -128, false⟩)) &&
  !(is_data_type_quantized_symmetric dt && f == .TANH &&
      !(qinfoEq oq ⟨mkRat 1 32768, 0, false⟩)) &&
  !(is_data_type_quantized_symmetric dt && f == .LOGISTIC &&
      !(qinfoEq oq ⟨mkRat 1 32768, 0, false⟩)) &&
  (match dst with
   | some d => d.total_size == 0 ||
       (decide (d.shape = src.shape) && d.data_type == src.data_type)
   | none => true)

/-- `CpuActivationKernel::validate` (lines 248-255): forwards to
`validate_arguments`. -/
def validate (src : TensorInfo) (dst : Option TensorInfo)
    (act : ActivationLayerInfo) : Bool :=
  validate_arguments src dst act

/-- A source/destination descriptor with the given data type and quantization
info, zero allocated size and empty shape. -/
def tinfo (dt : DataType) (q : QuantizationInfo) : TensorInfo :=
  ⟨dt, q, 0, []⟩

/-- An activation spec with the given function, unit parameters, enabled. -/
def actOf (f : ActivationFunction) : ActivationLayerInfo :=
  ⟨f, 1, 1, true⟩

/-- The condition under which `CpuActivationKernel::configure` builds a
256-entry lookup table and attaches it to the activation spec
(CpuActivationKernel.cpp, lines 225-233, aarch64 path): the source data type
is QASYMM8 or QASYMM8_SIGNED and the activation function is not RELU. -/
def configure_attaches_lut256 (dt : DataType) (f : ActivationFunction) : Bool :=
  (dt == .QASYMM8 || dt == .QASYMM8_SIGNED) && !(f == .RELU)

end ACL

namespace ACL

/-- C1 counterexample.  The claim says a statically quantized (non-dynamic)
8-bit asymmetric source admits only the RELU-family activations, so `validate`
would have to fail here; it succeeds: a non-dynamic QASYMM8 source with
quantization (1, 0) and LOGISTIC with (mandated) output quantization
(1/256, 0) — read from the source because no destination is given — passes
every check. -/
theorem c1_counterexample :
    validate (tinfo .QASYMM8 ⟨mkRat 1 256, 0, false⟩) none (actOf .LOGISTIC) = true := by
  decide

/-- C1 (amended): the guard at CpuActivationKernel.cpp line 82 tests
`oq_info.is_dynamic()`, so the restriction to RELU-family activations applies
to *dynamically* quantized 8-bit asymmetric tensors — the reverse of the
claim: for a dynamically quantized 8-bit asymmetric source (no destination,
so the source quantization governs), `validate` succeeds exactly for RELU,
bounded-RELU and lower/upper-bounded-RELU; for a statically quantized
(non-dynamic) source the broader whitelist applies: every accepted function
lies in {RELU, bounded-RELU, LU-bounded-RELU, logistic, tanh, hard-swish,
leaky-RELU, GELU}, every member other than tanh/logistic is accepted for any
quantization, and tanh/logistic are accepted at their mandated output
quantizations. -/
theorem c1_dynamic_static_whitelists :
    (∀ (s : ℚ) (z : ℤ) (f : ActivationFunction),
       validate (tinfo .QASYMM8 ⟨s, z, true⟩) none (actOf f) = true ↔
         f ∈ qasymm8_static_quant_activations) ∧
    (∀ (s : ℚ) (z : ℤ) (f : ActivationFunction),
       validate (tinfo .QASYMM8_SIGNED ⟨s, z, true⟩) none (actOf f) = true ↔
         f ∈ qasymm8_static_quant_activations) ∧
    (∀ (s : ℚ) (z : ℤ) (f : ActivationFunction),
       validate (tinfo .QASYMM8 ⟨s, z, false⟩) none (actOf f) = true →
         f ∈ qasymm8_activations) ∧
    (∀ (s : ℚ) (z : ℤ) (f : ActivationFunction),
       validate (tinfo .QASYMM8_SIGNED ⟨s, z, false⟩) none (actOf f) = true →
         f ∈ qasymm8_activations) ∧
    (∀ (s : ℚ) (z : ℤ) (f : ActivationFunction),
       f ∈ qasymm8_activations → f ≠ .TANH → f ≠ .LOGISTIC →
         validate (tinfo .QASYMM8 ⟨s, z, false⟩) none (actOf f) = true) ∧
    (∀ (s : ℚ) (z : ℤ) (f : ActivationFunction),
       f ∈ qasymm8_activations → f ≠ .TANH → f ≠ .LOGISTIC →
         validate (tinfo .QASYMM8_SIGNED ⟨s, z, false⟩) none (actOf f) = true) ∧
    validate (tinfo .QASYMM8 ⟨mkRat 1 128, 128, false⟩) none (actOf .TANH) = true ∧
    validate (tinfo .QASYMM8 ⟨mkRat 1 256, 0, false⟩) none (actOf .LOGISTIC) = true ∧
    validate (tinfo .QASYMM8_SIGNED ⟨mkRat 1 128, 0, false⟩) none (actOf .TANH) = true ∧
    validate (tinfo .QASYMM8_SIGNED ⟨mkRat 1 256, -128, false⟩) none
      (actOf .LOGISTIC) = true := by
  refine ⟨?_, ?_, ?_, ?_, ?_, ?_, by decide, by decide, by decide, by decide⟩ <;>
    intro s z f <;> cases f <;>
      simp [validate, validate_arguments, tinfo, actOf, output_qinfo, qinfoEq,
        data_type_supported, heuristics_kernel_found,
        is_data_type_quantized_asymmetric, is_data_type_quantized_asymmetric_char,
        is_data_type_quantized_symmetric, qasymm8_activations,
        qasymm8_static_quant_activations, qsymm16_activations]

/-- C1 witness: the amended theorem applied at a dynamically quantized QASYMM8
source with RELU. -/
theorem c1_witness :
    validate (tinfo .QASYMM8 ⟨1, 0, true⟩) none (actOf .RELU) = true :=
  (c1_dynamic_static_whitelists.1 1 0 .RELU).mpr (by decide)

/-- C2: for a quantized source with activation TANH or LOGISTIC, `validate`
succeeds only when the destination's (scale, zero_point) equals the mandated
pair of its domain — QASYMM8 tanh (1/128, 128), QASYMM8 logistic (1/256, 0),
QASYMM8_SIGNED tanh (1/128, 0), QASYMM8_SIGNED logistic (1/256, -128),
QSYMM16 tanh/logistic (1/32768, 0) — and for TANH on a QASYMM8 source with a
statically quantized unallocated destination, `validate` succeeds iff the
destination quantization pair is exactly (1/128, 128). -/
theorem c2_tanh_logistic_mandated_output :
    (∀ (src dst : TensorInfo) (act : ActivationLayerInfo),
       validate src (some dst) act = true →
       ((src.data_type = .QASYMM8 → act.activation = .TANH →
           qinfoEq dst.quantization_info ⟨mkRat 1 128, 128, false⟩ = true) ∧
        (src.data_type = .QASYMM8 → act.activation = .LOGISTIC →
           qinfoEq dst.quantization_info ⟨mkRat 1 256, 0, false⟩ = true) ∧
        (src.data_type = .QASYMM8_SIGNED → act.activation = .TANH →
           qinfoEq dst.quantization_info ⟨mkRat 1 128, 0, false⟩ = true) ∧
        (src.data_type = .QASYMM8_SIGNED → act.activation = .LOGISTIC →
           qinfoEq dst.quantization_info ⟨mkRat 1 256, -128, false⟩ = true) ∧
        (src.data_type = .QSYMM16 →
           (act.activation = .TANH ∨ act.activation = .LOGISTIC) →
           qinfoEq dst.quantization_info ⟨mkRat 1 32768, 0, false⟩ = true))) ∧
    (∀ (s : ℚ) (z : ℤ) (q : QuantizationInfo),
       validate (tinfo .QASYMM8 q) (some (tinfo .QASYMM8 ⟨s, z, false⟩))
           (actOf .TANH) = true ↔
         (s = mkRat 1 128 ∧ z = 128)) := by
  constructor
  · rintro ⟨dt, sq, sts, ssh⟩ ⟨dq, dts, dsh⟩ ⟨f, a, b, en⟩ h
    refine ⟨?_, ?_, ?_, ?_, ?_⟩ <;> rintro rfl (rfl | rfl) <;>
      simp_all [validate, validate_arguments, output_qinfo, qinfoEq,
        data_type_supported, heuristics_kernel_found,
        is_data_type_quantized_asymmetric, is_data_type_quantized_asymmetric_char,
        is_data_type_quantized_symmetric, qasymm8_activations,
        qasymm8_static_quant_activations, qsymm16_activations]
  · intro s z q
    simp [validate, validate_arguments, tinfo, actOf, output_qinfo, qinfoEq,
      data_type_supported, heuristics_kernel_found,
      is_data_type_quantized_asymmetric, is_data_type_quantized_asymmetric_char,
      is_data_type_quantized_symmetric, qasymm8_activations,
      qasymm8_static_quant_activations, qsymm16_activations]

/-- C2 witness: the mandated pair (1/128, 128) is accepted for TANH on a
QASYMM8 source, and the necessity direction applied there recovers the pair. -/
theorem c2_witness :
    validate (tinfo .QASYMM8 ⟨1, 0, false⟩)
        (some (tinfo .QASYMM8 ⟨mkRat 1 128, 128, false⟩)) (actOf .TANH) = true ∧
    qinfoEq (tinfo .QASYMM8 ⟨mkRat 1 128, 128, false⟩).quantization_info
        ⟨mkRat 1 128, 128, false⟩ = true := by
  have hv : validate (tinfo .QASYMM8 ⟨1, 0, false⟩)
      (some (tinfo .QASYMM8 ⟨mkRat 1 128, 128, false⟩)) (actOf .TANH) = true :=
    (c2_tanh_logistic_mandated_output.2 (mkRat 1 128) 128 ⟨1, 0, false⟩).mpr ⟨rfl, rfl⟩
  exact ⟨hv, ((c2_tanh_logistic_mandated_output.1 _ _ _ hv).1 rfl rfl)⟩

/-- C3 counterexample.  The claim says `validate` fails on a 16-bit symmetric
source for every activation other than logistic and tanh; HARD_SWISH is
accepted (it is the third entry of `qsymm16_activations`). -/
theorem c3_counterexample :
    validate (tinfo .QSYMM16 ⟨1, 0, false⟩) none (actOf .HARD_SWISH) = true := by
  decide

/-- C3 (amended): for a 16-bit symmetric quantized source, `validate` accepts
exactly the four functions of `qsymm16_activations` — logistic, tanh,
hard-swish and lower/upper-bounded RELU (logistic/tanh at their mandated
output quantization (1/32768, 0)) — and fails for every other activation
function. -/
theorem c3_qsymm16_whitelist :
    (∀ (q : QuantizationInfo) (f : ActivationFunction),
       validate (tinfo .QSYMM16 q) none (actOf f) = true →
         f ∈ qsymm16_activations) ∧
    (∀ (f : ActivationFunction), f ∈ qsymm16_activations →
       validate (tinfo .QSYMM16 ⟨mkRat 1 32768, 0, false⟩) none (actOf f) = true) := by
  constructor
  · rintro ⟨s, z, d⟩ f h
    cases f <;>
      simp_all [validate, validate_arguments, tinfo, actOf, output_qinfo, qinfoEq,
        data_type_supported, heuristics_kernel_found,
        is_data_type_quantized_asymmetric, is_data_type_quantized_asymmetric_char,
        is_data_type_quantized_symmetric, qasymm8_activations,
        qasymm8_static_quant_activations, qsymm16_activations]
  · intro f hf
    cases f <;> first
      | decide
      | simp_all [qsymm16_activations]

/-- C3 witness: the amended theorem applied at TANH with the mandated
quantization, in both directions. -/
theorem c3_witness :
    validate (tinfo .QSYMM16 ⟨mkRat 1 32768, 0, false⟩) none (actOf .TANH) = true ∧
    ActivationFunction.TANH ∈ qsymm16_activations := by
  have hv := c3_qsymm16_whitelist.2 .TANH (by decide)
  exact ⟨hv, c3_qsymm16_whitelist.1 ⟨mkRat 1 32768, 0, false⟩ .TANH hv⟩

set_option maxHeartbeats 2000000 in
/-- C6: given a configuration that `validate` accepts (so that `configure`
reaches its LUT step rather than raising), `configure` builds and attaches a
256-entry LUT exactly when the source data type is quantized 8-bit and the
activation function is neither IDENTITY nor RELU.  (The source condition only
excludes RELU, but IDENTITY is not in the 8-bit whitelist, so no validated
quantized-8-bit configuration carries it.) -/
theorem c6_lut256_attached_iff :
    ∀ (src : TensorInfo) (dst : Option TensorInfo) (act : ActivationLayerInfo),
      validate src dst act = true →
      (configure_attaches_lut256 src.data_type act.activation = true ↔
        ((src.data_type = .QASYMM8 ∨ src.data_type = .QASYMM8_SIGNED) ∧
          act.activation ≠ .IDENTITY ∧ act.activation ≠ .RELU)) := by
  rintro ⟨dt, sq, sts, ssh⟩ dst ⟨f, a, b, en⟩ h
  cases dt <;> cases f <;>
    simp_all [validate, validate_arguments, configure_attaches_lut256,
      output_qinfo, qinfoEq, data_type_supported, heuristics_kernel_found,
      is_data_type_quantized_asymmetric, is_data_type_quantized_asymmetric_char,
      is_data_type_quantized_symmetric, qasymm8_activations,
      qasymm8_static_quant_activations, qsymm16_activations]

/-- C6 witness: a validated QASYMM8 + HARD_SWISH configuration attaches the
256-entry LUT. -/
theorem c6_witness :
    configure_attaches_lut256 DataType.QASYMM8 ActivationFunction.HARD_SWISH = true :=
  (c6_lut256_attached_iff (tinfo .QASYMM8 ⟨1, 0, false⟩) none (actOf .HARD_SWISH)
    (by decide)).mpr ⟨Or.inl rfl, by decide, by decide⟩

/-- C10: with a null destination descriptor, `validate` evaluates every
output-quantization check against the source's quantization info: it agrees
with `validate` on an unallocated destination that copies the source's data
type, quantization and shape; in particular, with no destination, TANH on a
QASYMM8 source is accepted only if the source quantization pair itself is
(1/128, 128). -/
theorem c10_null_dst_uses_src_qinfo :
    (∀ (src : TensorInfo) (act : ActivationLayerInfo),
       validate src none act =
         validate src (some ⟨src.data_type, src.quantization_info, 0, src.shape⟩) act) ∧
    (∀ (q : QuantizationInfo),
       validate (tinfo .QASYMM8 q) none (actOf .TANH) = true →
         qinfoEq q ⟨mkRat 1 128, 128, false⟩ = true) := by
  constructor
  · intro src act
    rfl
  · rintro ⟨s, z, d⟩ h
    simp_all [validate, validate_arguments, tinfo, actOf, output_qinfo, qinfoEq,
      data_type_supported, heuristics_kernel_found,
      is_data_type_quantized_asymmetric, is_data_type_quantized_asymmetric_char,
      is_data_type_quantized_symmetric, qasymm8_activations,
      qasymm8_static_quant_activations, qsymm16_activations]

/-- C10 witness: the second component applied at the mandated source
quantization (validate accepts, and the pair is recovered). -/
theorem c10_witness :
    qinfoEq ⟨mkRat 1 128, 128, false⟩ ⟨mkRat 1 128, 128, false⟩ = true :=
  c10_null_dst_uses_src_qinfo.2 ⟨mkRat 1 128, 128, false⟩ (by decide)

/-- A one-dimensional iteration window: per-dimension `{start, end, step 1}`
(§3, Window).  `stop` stands for the source's `end`, a reserved word here. -/
structure WindowM where
  start : Nat
  stop : Nat
deriving DecidableEq, Repr

/-- The index points a window iterates over: `[start, stop)`. -/
def WindowM.points (w : WindowM) : List Nat :=
  List.range' w.start (w.stop - w.start)

/-- Whether index `p` lies inside window `w`. -/
def WindowM.covers (w : WindowM) (p : Nat) : Bool :=
  decide (w.start ≤ p) && decide (p < w.stop)

/-- Modelled from the spec: `ARM_COMPUTE_ERROR_ON_INVALID_SUBWINDOW` (declared
outside `src/`) checks that the sub-window passed to `run_op` lies within the
configured window (§4.4 "a subwindow not contained in the configured
Window"). -/
def subwindow_contained (full sub : WindowM) : Bool :=
  decide (full.start ≤ sub.start) && decide (sub.stop ≤ full.stop)

theorem WindowM.mem_points (w : WindowM) (p : Nat) :
    p ∈ w.points ↔ w.covers p = true := by
  simp only [WindowM.points, WindowM.covers, List.mem_range'_1, Bool.and_eq_true,
    decide_eq_true_eq]
  omega

/-- The state of a `CpuActivationKernel` instance that `run_op` reads:
whether `ICPPKernel::configure` fixed a window, the fixed window, whether the
heuristics selected a non-null `ukernel`, and the stored activation info. -/
structure KernelState where
  configured : Bool
  window : WindowM
  has_run_method : Bool
  act_info : ActivationLayerInfo

/-- Outcome of a `run_op` call: either a fatal precondition violation
(`ARM_COMPUTE_ERROR_ON*` terminates the call) or the destination contents. -/
inductive RunOutcome where
  | fatal
  | ok (dst : Nat → Int)

/-- Modelled from the spec: the selected variant's numeric routine applies the
activation per element of the sub-window, reading only the source and writing
only the covered destination elements (§4.4); the `ukernel` routines themselves
are hardware micro-kernels not under `src/`.  Element values are modelled as
integers (the LUT/quantized paths); `f` is the per-element map. -/
def elementwise (f : Int → Int) (src dst : Nat → Int) (w : WindowM) : Nat → Int :=
  fun p => if w.covers p = true then f (src p) else dst p

/-- `CpuActivationKernel::run_op` (CpuActivationKernel.cpp, lines 265-286):
the early return on a disabled activation spec, then the fatal precondition
checks in source order (unconfigured kernel, invalid sub-window, empty tensor
pack, null run method), then dispatch over the sub-window. -/
def run_op (st : KernelState) (f : Int → Int) (tensors_empty : Bool)
    (src dst : Nat → Int) (win : WindowM) : RunOutcome :=
  if st.act_info.enabled = false then .ok dst
  else if st.configured = false then .fatal
  else if subwindow_contained st.window win = false then .fatal
  else if tensors_empty = true then .fatal
  else if st.has_run_method = false then .fatal
  else .ok (elementwise f src dst win)

/-- One `run_op` invocation per sub-window, left to right, threading the
destination; a fatal outcome propagates. -/
def run_op_many (st : KernelState) (f : Int → Int) (tensors_empty : Bool)
    (src dst : Nat → Int) (ws : List WindowM) : RunOutcome :=
  ws.foldl
    (fun acc w =>
      match acc with
      | .fatal => .fatal
      | .ok d => run_op st f tensors_empty src d w)
    (.ok dst)

/-- C7: a kernel whose activation spec is disabled performs no work: `run_op`
returns the destination exactly as passed in, whatever the tensors, state and
sub-window. -/
theorem c7_disabled_activation_is_noop :
    ∀ (st : KernelState) (f : Int → Int) (tensors_empty : Bool)
      (src dst : Nat → Int) (win : WindowM),
      st.act_info.enabled = false →
      run_op st f tensors_empty src dst win = .ok dst := by
  intro st f te src dst win h
  simp [run_op, h]

/-- C7 witness: a disabled kernel leaves a concrete destination untouched. -/
theorem c7_witness :
    run_op ⟨false, ⟨0, 4⟩, false, ⟨.RELU, 1, 1, false⟩⟩ (fun x => x + 1) true
      (fun _ => 9) (fun _ => 7) ⟨0, 4⟩ = .ok (fun _ => 7) :=
  c7_disabled_activation_is_noop _ _ _ _ _ _ rfl

/-- C8: with the activation stage enabled (so the disabled-spec early return at
line 268 does not fire), each execution-time precondition violation is fatal —
an unconfigured kernel, a sub-window not contained in the configured window,
or a null selected routine all terminate the call with
`RunOutcome.fatal` rather than returning a destination. -/
theorem c8_run_precondition_violations_fatal :
    ∀ (st : KernelState) (f : Int → Int) (tensors_empty : Bool)
      (src dst : Nat → Int) (win : WindowM),
      st.act_info.enabled = true →
      ((st.configured = false →
          run_op st f tensors_empty src dst win = .fatal) ∧
       (subwindow_contained st.window win = false →
          run_op st f tensors_empty src dst win = .fatal) ∧
       (st.has_run_method = false →
          run_op st f tensors_empty src dst win = .fatal)) := by
  intro st f te src dst win hen
  refine ⟨?_, ?_, ?_⟩ <;> intro h <;> simp [run_op, hen, h]

/-- C8 witness: running an unconfigured (but enabled) kernel is fatal. -/
theorem c8_witness :
    run_op ⟨false, ⟨0, 4⟩, true, actOf .RELU⟩ (fun x => x) false
      (fun _ => 0) (fun _ => 0) ⟨0, 4⟩ = .fatal :=
  (c8_run_precondition_violations_fatal ⟨false, ⟨0, 4⟩, true, actOf .RELU⟩
    (fun x => x) false (fun _ => 0) (fun _ => 0) ⟨0, 4⟩ rfl).1 rfl

theorem foldl_elementwise_eq (f : Int → Int) (src : Nat → Int)
    (ws : List WindowM) (d : Nat → Int) (p : Nat) :
    (ws.foldl (fun acc w => elementwise f src acc w) d) p =
      if ∃ w ∈ ws, w.covers p = true then f (src p) else d p := by
  induction ws generalizing d with
  | nil => simp
  | cons w ws ih =>
    simp only [List.foldl_cons]
    rw [ih]
    by_cases h1 : w.covers p = true <;>
      by_cases h2 : ∃ w2 ∈ ws, w2.covers p = true <;>
        simp [elementwise, h1, h2]

theorem run_op_many_ok (st : KernelState) (f : Int → Int) (src : Nat → Int)
    (ws : List WindowM) (dst : Nat → Int)
    (hen : st.act_info.enabled = true) (hc : st.configured = true)
    (hm : st.has_run_method = true)
    (hws : ∀ w ∈ ws, subwindow_contained st.window w = true) :
    run_op_many st f false src dst ws =
      .ok (ws.foldl (fun acc w => elementwise f src acc w) dst) := by
  induction ws generalizing dst with
  | nil => rfl
  | cons w ws ih =>
    have hw : subwindow_contained st.window w = true := hws w (by simp)
    have hrun : run_op st f false src dst w = .ok (elementwise f src dst w) := by
      simp [run_op, hen, hc, hm, hw]
    simp only [run_op_many, List.foldl_cons] at ih ⊢
    rw [hrun]
    exact ih (elementwise f src dst w) (fun w2 h2 => hws w2 (by simp [h2]))

/-- C9: for a configured, enabled kernel with a selected routine, running once
per sub-window over any family of sub-windows of the configured window that
covers its points exactly (their point lists are a permutation of the full
window's point list — the spec's "no element is visited twice or skipped")
produces the same destination as a single run over the full window, exactly. -/
theorem c9_subwindow_partition_equals_full_run :
    ∀ (st : KernelState) (f : Int → Int) (src dst : Nat → Int)
      (ws : List WindowM),
      st.act_info.enabled = true →
      st.configured = true →
      st.has_run_method = true →
      (∀ w ∈ ws, subwindow_contained st.window w = true) →
      ((ws.map WindowM.points).flatten).Perm st.window.points →
      run_op_many st f false src dst ws = run_op st f false src dst st.window := by
  intro st f src dst ws hen hc hm hws hperm
  have hfull : subwindow_contained st.window st.window = true := by
    simp [subwindow_contained]
  rw [run_op_many_ok st f src ws dst hen hc hm hws]
  have hrhs : run_op st f false src dst st.window =
      .ok (elementwise f src dst st.window) := by
    simp [run_op, hen, hc, hm, hfull]
  rw [hrhs]
  congr 1
  funext p
  rw [foldl_elementwise_eq]
  have hmem : (∃ w ∈ ws, w.covers p = true) ↔ st.window.covers p = true := by
    rw [← WindowM.mem_points, ← hperm.mem_iff]
    simp only [List.mem_flatten, List.mem_map]
    constructor
    · rintro ⟨w, hw, hcov⟩
      exact ⟨w.points, ⟨w, hw, rfl⟩, (WindowM.mem_points w p).mpr hcov⟩
    · rintro ⟨l, ⟨w, hw, rfl⟩, hp⟩
      exact ⟨w, hw, (WindowM.mem_points w p).mp hp⟩
  by_cases h : st.window.covers p = true
  · simp [elementwise, h, hmem.mpr h]
  · have : ¬ ∃ w ∈ ws, w.covers p = true := fun hx => h (hmem.mp hx)
    simp [elementwise, h, this]

/-- C9 witness: splitting the window [0, 2) into [0, 1) and [1, 2) gives the
same outcome as the single full-window run. -/
theorem c9_witness :
    run_op_many ⟨true, ⟨0, 2⟩, true, actOf .RELU⟩ (fun x => x * x) false
        (fun _ => 3) (fun _ => 0) [⟨0, 1⟩, ⟨1, 2⟩] =
      run_op ⟨true, ⟨0, 2⟩, true, actOf .RELU⟩ (fun x => x * x) false
        (fun _ => 3) (fun _ => 0) ⟨0, 2⟩ :=
  c9_subwindow_partition_equals_full_run ⟨true, ⟨0, 2⟩, true, actOf .RELU⟩
    (fun x => x * x) (fun _ => 3) (fun _ => 0) [⟨0, 1⟩, ⟨1, 2⟩]
    rfl rfl rfl (by decide) (List.Perm.refl _)

/-- A two-dimensional iteration window over the accumulator: row range × column
range. -/
structure OffsetWindow where
  row_start : Nat
  row_stop : Nat
  col_start : Nat
  col_stop : Nat
deriving DecidableEq, Repr

/-- Whether accumulator element (i, j) lies inside the window. -/
def OffsetWindow.covers (w : OffsetWindow) (i j : Nat) : Bool :=
  decide (w.row_start ≤ i) && decide (i < w.row_stop) &&
  decide (w.col_start ≤ j) && decide (j < w.col_stop)

/-- Modelled from the spec: the implementation of
`CpuGemmLowpOffsetContributionKernel::run_op` is not under `src/` (only the
class header is).  Per §4.5 and the header's own doc comment
(CpuGemmLowpOffsetContributionKernel.h, lines 43-49), each int32 accumulator
element inside the configured window gets
`vector_sum_col[j]*a_offset + vector_sum_row[i]*b_offset + a_offset*b_offset*k`
added in place; this is the raw-int32 path (scale = 1), with int32 modelled as
unbounded integers. -/
def offset_contribution_run (mm_result : Nat → Nat → Int)
    (vector_sum_col vector_sum_row : Nat → Int)
    (k a_offset b_offset : Int) (w : OffsetWindow) : Nat → Nat → Int :=
  fun i j =>
    if w.covers i j = true then
      mm_result i j + (vector_sum_col j * a_offset + vector_sum_row i * b_offset +
        a_offset * b_offset * k)
    else mm_result i j

/-- C4: inside the configured window, `run` adds exactly
`vector_sum_col[j]*a_offset + vector_sum_row[i]*b_offset + a_offset*b_offset*k`
to `mm_result[i][j]` in place, and leaves elements outside the window
untouched; for the 1x1 accumulator with k=1, a_offset=2, b_offset=3,
vector_sum_col=[5], vector_sum_row=[7], mm_result=[10], the result is 47. -/
theorem c4_offset_contribution_formula :
    (∀ (mm : Nat → Nat → Int) (vsc vsr : Nat → Int) (k a b : Int)
       (w : OffsetWindow) (i j : Nat), w.covers i j = true →
       offset_contribution_run mm vsc vsr k a b w i j =
         mm i j + (vsc j * a + vsr i * b + a * b * k)) ∧
    (∀ (mm : Nat → Nat → Int) (vsc vsr : Nat → Int) (k a b : Int)
       (w : OffsetWindow) (i j : Nat), w.covers i j = false →
       offset_contribution_run mm vsc vsr k a b w i j = mm i j) ∧
    offset_contribution_run (fun _ _ => 10) (fun _ => 5) (fun _ => 7) 1 2 3
      ⟨0, 1, 0, 1⟩ 0 0 = 47 := by
  refine ⟨?_, ?_, by decide⟩ <;> intro mm vsc vsr k a b w i j h <;>
    simp [offset_contribution_run, h]

/-- C4 witness: the in-window formula applied at the literal 1x1 case yields
10 + 5*2 + 7*3 + 2*3*1 = 47. -/
theorem c4_witness :
    offset_contribution_run (fun _ _ => 10) (fun _ => 5) (fun _ => 7) 1 2 3
      ⟨0, 1, 0, 1⟩ 0 0 = 47 :=
  (c4_offset_contribution_formula.1 (fun _ _ => 10) (fun _ => 5) (fun _ => 7)
    1 2 3 ⟨0, 1, 0, 1⟩ 0 0 (by decide)).trans (by decide)

end ACL
